import Mathlib

/-!
Verification of the AtomAgent client-side real-time layer.

The development shallowly embeds the JavaScript modules that the claims
are about:
  - web/static/js/chat.js        (stream accumulator: createAIMessageElement,
                                  appendToken, finalizeAIMessage, showError,
                                  showSystemMessage, stopGeneration)
  - tools panel (addToolStart / addToolEnd, the tool-activity ledger)
  - web/static/js/preview.js     (preview / window manager: setPreviewContent,
                                  addAppToTaskbar, minimizeCurrentApp,
                                  restoreApp, removeActiveApp)
  - the WebSocket dispatcher (handleWebSocketMessage)

JavaScript strings are modelled as lists of characters; the DOM message
area is a list of (element id, message) pairs, with ids allocated from a
counter so that the aliasing between the module-level currentAIMessage
reference and the child list of the messages container is explicit.
Purely presentational DOM (status captions, URL bar, terminal overlay,
taskbar rendering, scroll positions, syntax highlighting) and external
collaborators (HTTP fetches, console logging, custom DOM events) are
outside the modelled state; handlers that touch only those are identity
on the modelled state.  The markdown renderer is an arbitrary function
parameter, as it is an external collaborator.
-/

/-- A JavaScript string, as a list of characters. -/
abbrev Str := List Char

/-- The set of characters treated as whitespace by JavaScript
String.prototype.trim (ASCII whitespace plus NBSP and the BOM; the
exotic Unicode spaces are irrelevant to this corpus). -/
def isWS (c : Char) : Bool :=
  c = ' ' || c = '\t' || c = '\n' || c = '\r' ||
  c = (Char.ofNat 11) || c = (Char.ofNat 12) ||
  c = (Char.ofNat 0xA0) || c = (Char.ofNat 0xFEFF)

/-- JavaScript String.prototype.trim: strip leading and trailing
whitespace. -/
def jsTrim (s : Str) : Str :=
  ((s.dropWhile isWS).reverse.dropWhile isWS).reverse

/-- The string contains at least one non-whitespace character.  Used to
state the claims; linked to jsTrim by hasNonWS_iff_jsTrim. -/
def hasNonWS (s : Str) : Bool :=
  s.any (fun c => !(isWS c))

/-! ## Data model -/

/-- CSS role class of a message div in the messages container
(chat.js builds divs with className "message user", "message ai",
"message system", or "tool-activity"). -/
inductive Role where
  | user
  | ai
  | system
  | toolActivity
deriving DecidableEq

/-- One child div of the messages container: its role class, whether it
carries the extra "pending" class, and its rendered content
(innerHTML, or textContent for system messages). -/
structure Msg where
  role : Role
  pending : Bool
  html : Str
deriving DecidableEq

/-- An outbound envelope written to the WebSocket (chat.js sends
JSON.stringify of these). -/
inductive OutMsg where
  | stop
  | message (content : Str) (sessionId : Option Str)
deriving DecidableEq

/-- The WebSocket object of the client: its readyState (0 CONNECTING, 1 OPEN,
2 CLOSING, 3 CLOSED) and the log of envelopes sent on it. -/
structure WSock where
  readyState : Nat
  sent : List OutMsg
deriving DecidableEq

/-- WebSocket.OPEN. -/
def wsOpen : Nat := 1

/-- Status of a ledger entry (tools panel). -/
inductive TStatus where
  | running
  | completed
deriving DecidableEq

/-- One entry of the tool-activity ledger (the toolHistory of the
tools panel).  The source id is the string "tool-" + Date.now(); only
the numeric timestamp is modelled. -/
structure ToolEntry where
  id : Int
  tool : Str
  input : Str
  output : Option Str
  status : TStatus
  startTime : Int
  endTime : Option Int
  duration : Option Int
deriving DecidableEq

/-- preview.js previewState: mode is one of the strings "empty", "web",
"image", "vnc"; content is a URL or null; timestamp is Date.now() of
the last update. -/
structure Preview where
  mode : String
  content : Option Str
  timestamp : Int
deriving DecidableEq

/-- One taskbar app entry (preview.js openApps).  addAppToTaskbar pushes
an object literal without a content property, so reading app.content
always yields undefined; the field is kept to make that read explicit
and is none in every reachable state. -/
structure TApp where
  id : String
  name : String
  icon : String
  type : String
  minimized : Bool
  content : Option Str
deriving DecidableEq

/-- The preview viewport: which of the four content elements is visible
(placeholder, web iframe, image, VNC container) and the src attributes
last assigned to the media elements. -/
structure Viewport where
  placeholderVisible : Bool
  frameVisible : Bool
  imageVisible : Bool
  vncVisible : Bool
  frameSrc : Option Str
  imageSrc : Option Str
  vncFrameSrc : Option Str
deriving DecidableEq

/-- The modelled client state: the chat-module globals
(currentAIMessage, currentAIContent), the shared state object of
state.js (hasReceivedContent, isStreaming, currentSessionId, ws), the
messages container, the tools-panel ledger, and the preview-module
previewState / openApps / viewport.  Message divs are identified by ids
allocated from nextId, so that the currentAIMessage reference and the
child list of the container alias explicitly. -/
structure AppState where
  messages : List (Nat × Msg)
  nextId : Nat
  currentAIMessage : Option Nat
  currentAIContent : Str
  hasReceivedContent : Bool
  isStreaming : Bool
  currentSessionId : Option Str
  ws : Option WSock
  toolHistory : List ToolEntry
  activeToolId : Option Int
  preview : Preview
  openApps : List TApp
  viewport : Viewport
deriving DecidableEq

/-- The initial client state: empty chat, no socket, empty ledger,
preview in mode "empty" with the placeholder visible. -/
def initState : AppState where
  messages := []
  nextId := 0
  currentAIMessage := none
  currentAIContent := []
  hasReceivedContent := false
  isStreaming := false
  currentSessionId := none
  ws := none
  toolHistory := []
  activeToolId := none
  preview := ⟨"empty", none, 0⟩
  openApps := []
  viewport := ⟨true, false, false, false, none, none, none⟩

/-- Mutate the message div with the given id in the container
(models writing through the currentAIMessage reference). -/
def setMsg (mid : Nat) (f : Msg → Msg) (ms : List (Nat × Msg)) :
    List (Nat × Msg) :=
  ms.map (fun p => if p.1 = mid then (p.1, f p.2) else p)

/-- element.remove(): detach the div with the given id. -/
def removeMsg (mid : Nat) (ms : List (Nat × Msg)) : List (Nat × Msg) :=
  ms.filter (fun p => p.1 ≠ mid)

/-- messages.insertBefore(e, ref): insert e before the div with id
refId (appending if refId is absent, as for a null reference). -/
def insertBeforeMsg (refId : Nat) (e : Nat × Msg) :
    List (Nat × Msg) → List (Nat × Msg)
  | [] => [e]
  | p :: rest =>
      if p.1 = refId then e :: p :: rest
      else p :: insertBeforeMsg refId e rest

/-- The innerHTML assigned to a fresh AI message div by
createAIMessageElement. -/
def typingIndicatorHTML : Str :=
  ("<div class=\"typing-indicator\"><span></span><span></span><span></span></div>").data

/-! ## chat.js: the stream accumulator -/

/-- chat.js createAIMessageElement: reset the accumulator, create a div
with className "message ai pending" showing the typing indicator, and
append it; the module-level currentAIMessage now references it. -/
def createAIMessageElement (s : AppState) : AppState :=
  { s with
    currentAIContent := []
    hasReceivedContent := false
    currentAIMessage := some s.nextId
    messages := s.messages ++ [(s.nextId, ⟨Role.ai, true, typingIndicatorHTML⟩)]
    nextId := s.nextId + 1 }

/-- chat.js appendToken: no-op without a current message; on the first
token whose trim is non-empty, set hasReceivedContent and drop the
"pending" class; always append the token to currentAIContent and
re-render the whole accumulated content (render models the external
renderMarkdown). -/
def appendToken (render : Str → Str) (token : Str) (s : AppState) : AppState :=
  match s.currentAIMessage with
  | none => s
  | some mid =>
    let s :=
      if !s.hasReceivedContent && !(jsTrim token).isEmpty then
        { s with
          hasReceivedContent := true
          messages := setMsg mid (fun m => { m with pending := false }) s.messages }
      else s
    let newContent := s.currentAIContent ++ token
    { s with
      currentAIContent := newContent
      messages := setMsg mid (fun m => { m with html := render newContent }) s.messages }

/-- chat.js finalizeAIMessage: remove the div if no real content was
received (the API-retry case); otherwise, if content is non-empty,
drop "pending" and re-render once; then reset the accumulator
globals. -/
def finalizeAIMessage (render : Str → Str) (s : AppState) : AppState :=
  let s :=
    match s.currentAIMessage with
    | some mid =>
      if !s.hasReceivedContent then
        { s with messages := removeMsg mid s.messages }
      else if !s.currentAIContent.isEmpty then
        { s with
          messages := setMsg mid
            (fun m => { m with pending := false, html := render s.currentAIContent })
            s.messages }
      else s
    | none => s
  { s with
    currentAIMessage := none
    currentAIContent := []
    hasReceivedContent := false }

/-- The "❌ Hata: " prefix chat.js puts before error text. -/
def errPrefix : Str := ("❌ Hata: ").data

/-- chat.js showError: append a div with className "message system" and
textContent "❌ Hata: " + message. -/
def showError (message : Str) (s : AppState) : AppState :=
  { s with
    messages := s.messages ++ [(s.nextId, ⟨Role.system, false, errPrefix ++ message⟩)]
    nextId := s.nextId + 1 }

/-- chat.js showSystemMessage: append a div with className
"message system" and the given textContent. -/
def showSystemMessage (message : Str) (s : AppState) : AppState :=
  { s with
    messages := s.messages ++ [(s.nextId, ⟨Role.system, false, message⟩)]
    nextId := s.nextId + 1 }

/-- chat.js stopGeneration: send {type:"stop"} only when a socket exists
and its readyState is WebSocket.OPEN; otherwise nothing happens (the
console.log calls have no state effect). -/
def stopGeneration (s : AppState) : AppState :=
  match s.ws with
  | some w =>
      if w.readyState = wsOpen then
        { s with ws := some { w with sent := w.sent ++ [OutMsg.stop] } }
      else s
  | none => s

/-- utils.js escapeHtml via div.textContent / div.innerHTML: the browser
escapes the markup-significant characters. -/
def escapeHtml (t : Str) : Str :=
  t.flatMap (fun c =>
    if c = '&' then ("&amp;").data
    else if c = '<' then ("&lt;").data
    else if c = '>' then ("&gt;").data
    else [c])

/-- The innerHTML template chat.js addToolActivity builds for a
tool-activity div ("start" uses a wrench and 200-char truncation,
"end" a check mark and 500 chars). -/
def toolActivityHtml (toolName content : Str) (isStart : Bool) : Str :=
  let cap : Nat := if isStart then 200 else 500
  let icon : Str := if isStart then ("🔧 ").data else ("✅ ").data
  ("\n            <span class=\"tool-name\">").data ++ icon ++ escapeHtml toolName ++
  ("</span>\n            <div class=\"tool-output\">").data ++
  escapeHtml (content.take cap) ++
  (if content.length > cap then ("...").data else []) ++
  ("</div>\n        ").data

/-- chat.js addToolActivity: build the tool-activity div and, only while
an AI message is streaming, insert it just before the current AI
message div.  The terminal-panel line it also appends lives outside
the modelled state. -/
def addToolActivity (toolName content : Str) (isStart : Bool) (s : AppState) :
    AppState :=
  match s.currentAIMessage with
  | some mid =>
      { s with
        messages := insertBeforeMsg mid
          (s.nextId, ⟨Role.toolActivity, false, toolActivityHtml toolName content isStart⟩)
          s.messages
        nextId := s.nextId + 1 }
  | none => s

/-! ## Tools panel: the tool-activity ledger -/

/-- MAX_HISTORY in the tools panel. -/
def maxHistory : Nat := 50

/-- tools addToolStart: unshift a fresh running entry (id and startTime
both from Date.now(), passed as now), evicting the oldest entry past
MAX_HISTORY, and remember it as the active tool. -/
def addToolStart (toolName input : Str) (now : Int) (s : AppState) : AppState :=
  let entry : ToolEntry :=
    { id := now, tool := toolName, input := input, output := none
      status := TStatus.running, startTime := now, endTime := none, duration := none }
  let h := entry :: s.toolHistory
  let h := if h.length > maxHistory then h.dropLast else h
  { s with toolHistory := h, activeToolId := some now }

/-- The find-and-mutate of tools addToolEnd: update the first entry (in
unshift order, i.e. the most recently started) that has the matching
tool name and is still running; leave everything else alone. -/
def endFirst (toolName output : Str) (now : Int) :
    List ToolEntry → List ToolEntry
  | [] => []
  | e :: rest =>
      if e.tool = toolName ∧ e.status = TStatus.running then
        { e with
          output := some output
          status := TStatus.completed
          endTime := some now
          duration := some (now - e.startTime) } :: rest
      else e :: endFirst toolName output now rest

/-- tools addToolEnd: toolHistory.find of the first running entry with
the matching name, completed in place; the active tool is cleared
whether or not a match was found. -/
def addToolEnd (toolName output : Str) (now : Int) (s : AppState) : AppState :=
  { s with
    toolHistory := endFirst toolName output now s.toolHistory
    activeToolId := none }

/-! ## preview.js: preview / window manager -/

/-- preview.js hideAll: add the hidden class to all four content
elements. -/
def hideAll (v : Viewport) : Viewport :=
  { v with
    placeholderVisible := false
    frameVisible := false
    imageVisible := false
    vncVisible := false }

/-- preview.js addAppToTaskbar: if an app with this id is already open,
return immediately; otherwise push a new entry with minimized false.
The source pushes an object literal of id, name, icon and type only —
the content field of appInfo is dropped, so the stored content is
undefined (none).  renderTaskbar and showWindowControls only touch
presentational DOM. -/
def addAppToTaskbar (id name icon type : String) (_content : Option Str)
    (s : AppState) : AppState :=
  if s.openApps.any (fun a => a.id = id) then s
  else
    { s with
      openApps := s.openApps ++
        [{ id := id, name := name, icon := icon, type := type
           minimized := false, content := none }] }

/-- preview.js showWeb: reject a missing, empty or literal "undefined"
URL; otherwise hide everything, show the iframe, assign its src, and
register the taskbar app (the URL-bar update is presentational). -/
def showWeb (url : Option Str) (s : AppState) : AppState :=
  match url with
  | none => s
  | some u =>
      if u.isEmpty || u = ("undefined").data then s
      else
        let s := { s with viewport :=
          { hideAll s.viewport with frameVisible := true, frameSrc := some u } }
        addAppToTaskbar "app_web" "Web Preview" "🌐" "web" (some u) s

/-- preview.js showImage: hide everything, show the image element and
assign its src, and register the taskbar app. -/
def showImage (src : Option Str) (s : AppState) : AppState :=
  let s := { s with viewport :=
    { hideAll s.viewport with imageVisible := true, imageSrc := src } }
  addAppToTaskbar "app_image" "Image Viewer" "🖼️" "image" src s

/-- The noVNC URL showVNC builds from the resolved port. -/
def vncUrlFor (port : Int) : Str :=
  ("http://localhost:").data ++ (toString port).data ++
  ("/vnc.html?autoconnect=true&resize=scale&reconnect=true").data

/-- preview.js showVNC: hide everything, show the VNC container, build
the noVNC URL from data.port || 16080, assign it to the inner iframe,
and register the taskbar app. -/
def showVNC (dataPort : Option Int) (s : AppState) : AppState :=
  let port : Int :=
    match dataPort with
    | some p => if p = 0 then 16080 else p
    | none => 16080
  let u := vncUrlFor port
  let s := { s with viewport :=
    { hideAll s.viewport with vncVisible := true, vncFrameSrc := some u } }
  addAppToTaskbar "app_vnc" "VNC Desktop" "🖥️" "vnc" (some u) s

/-- preview.js showEmpty: hide everything except the placeholder. -/
def showEmpty (s : AppState) : AppState :=
  { s with viewport := { hideAll s.viewport with placeholderVisible := true } }

/-- The default content recorded for VNC mode: data.url || the
websockify URL. -/
def defaultVncContent : Str := ("ws://localhost:6080/websockify").data

/-- preview.js setPreviewContent: stamp the time, then branch on the
mode string, recording mode and content in previewState and invoking
the mode-specific show routine (updateStatus only writes the status
caption). -/
def setPreviewContent (now : Int) (type : String) (url : Option Str)
    (port : Option Int) (s : AppState) : AppState :=
  let s := { s with preview := { s.preview with timestamp := now } }
  if type = "web" then
    let s := { s with preview := { s.preview with mode := "web", content := url } }
    showWeb url s
  else if type = "image" then
    let s := { s with preview := { s.preview with mode := "image", content := url } }
    showImage url s
  else if type = "vnc" then
    let content : Str :=
      match url with
      | some u => if u.isEmpty then defaultVncContent else u
      | none => defaultVncContent
    let s := { s with preview :=
      { s.preview with mode := "vnc", content := some content } }
    showVNC port s
  else
    let s := { s with preview := { s.preview with mode := "empty" } }
    showEmpty s

/-- Set the minimized flag on the first app with the given id (models
openApps.find followed by mutation of the found object). -/
def setMinimizedFirst (appId : String) (b : Bool) :
    List TApp → List TApp
  | [] => []
  | a :: rest =>
      if a.id = appId then { a with minimized := b } :: rest
      else a :: setMinimizedFirst appId b rest

/-- preview.js hideAllContent: hide the four elements, then showEmpty —
the placeholder ends up visible. -/
def hideAllContent (s : AppState) : AppState :=
  showEmpty { s with viewport := hideAll s.viewport }

/-- preview.js minimizeCurrentApp: mark the app for the current preview
mode minimized (if it exists), then blank the viewport.  previewState
itself is untouched. -/
def minimizeCurrentApp (s : AppState) : AppState :=
  let appId := "app_" ++ s.preview.mode
  let s := { s with openApps := setMinimizedFirst appId true s.openApps }
  hideAllContent s

/-- preview.js restoreApp: look the app up by id; if found, clear its
minimized flag and re-invoke the type-specific show routine —
showWeb(app.content), showVNC({}) or showImage(app.content).  Because
addAppToTaskbar never stored content, app.content is undefined. -/
def restoreApp (appId : String) (s : AppState) : AppState :=
  match s.openApps.find? (fun a => a.id = appId) with
  | none => s
  | some app =>
      let s := { s with openApps := setMinimizedFirst appId false s.openApps }
      let s := if app.type = "web" then showWeb app.content s else s
      let s := if app.type = "vnc" then showVNC none s else s
      let s := if app.type = "image" then showImage app.content s else s
      s

/-- preview.js removeActiveApp: when a mode is showing, drop its taskbar
entry; in all cases reset the mode to "empty" (content and the
taskbar entries of other modes are untouched). -/
def removeActiveApp (s : AppState) : AppState :=
  let s :=
    if s.preview.mode ≠ "empty" then
      let appId := "app_" ++ s.preview.mode
      { s with openApps := s.openApps.filter (fun a => a.id ≠ appId) }
    else s
  { s with preview := { s.preview with mode := "empty" } }

/-- preview.js handleWindowAction "close": hide the content region and
remove the active app. -/
def closeWindow (s : AppState) : AppState :=
  removeActiveApp (hideAllContent s)

/-! ## The WebSocket dispatcher (handleWebSocketMessage) -/

/-- The decoded JSON data object of an inbound envelope.  Optional or
absent payload fields other than the type tag default to the empty
string (the dispatcher guards that distinguish undefined from the empty string treat
both as falsy, so the conflation is behavior-preserving for the
modelled envelopes); port carries the numeric payload of
server_started. -/
structure Data where
  type : String
  content : Str := []
  tool : Str := []
  input : Str := []
  output : Str := []
  url : Str := []
  message : Str := []
  sessionId : Str := []
  port : Option Int := none
deriving DecidableEq

/-- One raw transport frame: either its body parses as JSON giving a
data object, or it is not valid JSON. -/
inductive Frame where
  | malformed
  | json (d : Data)
deriving DecidableEq

/-- The exception JSON.parse raises on a body that is not valid JSON. -/
inductive JsErr where
  | parseError
deriving DecidableEq

/-- The sandbox-to-host port map of the server_started case. -/
def portMap (p : Int) : Int :=
  if p = 3000 then 13000
  else if p = 5000 then 15000
  else if p = 8000 then 18000
  else if p = 8080 then 18080
  else if p = 8501 then 18501
  else if p = 8007 then 18007
  else if p = 8008 then 18008
  else if p = 8009 then 18009
  else if p = 8010 then 18010
  else p

/-- The URL the server_started case previews. -/
def serverStartedUrl (port : Option Int) : Str :=
  match port with
  | some p => ("http://localhost:").data ++ (toString (portMap p)).data
  | none => ("http://localhost:NaN").data

/-- The kind tags of the switch of the dispatcher (its fixed routing
table). -/
def knownKinds : List String :=
  ["session_created", "stream_start", "token", "tool_start", "tool_end",
   "todo_update", "memory_update", "browser_start", "browser_result",
   "stream_end", "error", "stopped", "system", "status",
   "thinking_start", "thinking_token", "thinking_end",
   "docker_command", "docker_output", "server_started", "canvas_url",
   "html_created", "gui_started", "reminder_triggered"]

/-- The dispatcher handleWebSocketMessage: JSON.parse the frame body —
with no try/catch, so a malformed body propagates the parse exception
— then switch on data.type.  Handlers whose effects lie entirely
outside the modelled state (todo/memory/docker/canvas/reminder/status
panels, console log, mobile-mirror events, session reloads, the
streaming-UI toggle and terminal overlay) are identity here; a kind
with no case falls through the switch with no effect. -/
def handleWebSocketMessage (render : Str → Str) (now : Int) (fr : Frame)
    (s : AppState) : Except JsErr AppState :=
  match fr with
  | Frame.malformed => Except.error JsErr.parseError
  | Frame.json d =>
    if d.type = "session_created" then
      Except.ok { s with currentSessionId := some d.sessionId }
    else if d.type = "stream_start" then
      Except.ok (createAIMessageElement { s with isStreaming := true })
    else if d.type = "token" then
      Except.ok (appendToken render d.content s)
    else if d.type = "tool_start" then
      Except.ok (addToolStart d.tool d.input now
        (addToolActivity d.tool d.input true s))
    else if d.type = "tool_end" then
      Except.ok (addToolEnd d.tool d.output now
        (addToolActivity d.tool d.output false s))
    else if d.type = "todo_update" then Except.ok s
    else if d.type = "memory_update" then Except.ok s
    else if d.type = "browser_start" then
      Except.ok
        (if !d.url.isEmpty && !(d.url == ("undefined").data)
            && !(jsTrim d.url).isEmpty then
          setPreviewContent now "web" (some d.url) none s
        else s)
    else if d.type = "browser_result" then Except.ok s
    else if d.type = "stream_end" then
      Except.ok (finalizeAIMessage render { s with isStreaming := false })
    else if d.type = "error" then
      Except.ok { showError d.message s with isStreaming := false }
    else if d.type = "stopped" then
      Except.ok (finalizeAIMessage render { s with isStreaming := false })
    else if d.type = "system" then
      Except.ok (showSystemMessage d.message s)
    else if d.type = "status" then Except.ok s
    else if d.type = "thinking_start" then Except.ok s
    else if d.type = "thinking_token" then Except.ok s
    else if d.type = "thinking_end" then Except.ok s
    else if d.type = "docker_command" then Except.ok s
    else if d.type = "docker_output" then Except.ok s
    else if d.type = "server_started" then
      Except.ok (setPreviewContent now "web" (some (serverStartedUrl d.port)) none s)
    else if d.type = "canvas_url" then Except.ok s
    else if d.type = "html_created" then Except.ok s
    else if d.type = "gui_started" then
      Except.ok (setPreviewContent now "vnc" (some []) none s)
    else if d.type = "reminder_triggered" then Except.ok s
    else Except.ok s

/-- Process a sequence of timed frames in arrival order, stopping at the
first uncaught exception. -/
def runEvents (render : Str → Str) : List (Int × Frame) → AppState →
    Except JsErr AppState
  | [], s => Except.ok s
  | (now, fr) :: rest, s =>
      match handleWebSocketMessage render now fr s with
      | Except.ok s2 => runEvents render rest s2
      | Except.error e => Except.error e

/-- The stream_start frame. -/
def startFrame : Frame := Frame.json { type := "stream_start" }

/-- A token frame with the given payload. -/
def tokenFrame (c : Str) : Frame := Frame.json { type := "token", content := c }

/-- The stream_end frame. -/
def endFrame : Frame := Frame.json { type := "stream_end" }

/-- The stopped frame. -/
def stoppedFrame : Frame := Frame.json { type := "stopped" }

/-- An error frame with the given message. -/
def errorFrame (m : Str) : Frame := Frame.json { type := "error", message := m }

/-- A browser_start frame with the given tool and url. -/
def browserStartFrame (tool url : Str) : Frame :=
  Frame.json { type := "browser_start", tool := tool, url := url }

/-- A tool_start frame with the given tool and input. -/
def toolStartFrame (tool input : Str) : Frame :=
  Frame.json { type := "tool_start", tool := tool, input := input }

/-- Well-formedness of the messages container: distinct element ids, all
below the allocation counter.  Holds in the initial state and is
preserved by every modelled operation. -/
def WF (s : AppState) : Prop :=
  (s.messages.map Prod.fst).Nodup ∧ ∀ p ∈ s.messages, p.1 < s.nextId

instance (s : AppState) : Decidable (WF s) := by
  unfold WF
  infer_instance

/-- Folding appendToken over a token list (the token case of the dispatcher,
one call per token frame). -/
def processTokens (render : Str → Str) (toks : List Str) (s : AppState) :
    AppState :=
  toks.foldl (fun st t => appendToken render t st) s

/-- One user- or event-triggered preview/window operation (the
operations named by the claim). -/
inductive PrevOp where
  | setContent (now : Int) (type : String) (url : Option Str) (port : Option Int)
  | minimize
  | restore (appId : String)
  | close
deriving DecidableEq

/-- Apply one preview/window operation. -/
def applyPrevOp (op : PrevOp) (s : AppState) : AppState :=
  match op with
  | PrevOp.setContent now type url port => setPreviewContent now type url port s
  | PrevOp.minimize => minimizeCurrentApp s
  | PrevOp.restore appId => restoreApp appId s
  | PrevOp.close => closeWindow s

/-- Apply a sequence of preview/window operations. -/
def applyPrevOps (ops : List PrevOp) (s : AppState) : AppState :=
  ops.foldl (fun s op => applyPrevOp op s) s

/-- The open-apps list holds no two entries with the same id. -/
def appIdsNodup (s : AppState) : Prop :=
  (s.openApps.map (fun a => a.id)).Nodup

/-! ## String lemmas -/

theorem dropWhile_eq_nil_iff_all {p : Char → Bool} {l : Str} :
    l.dropWhile p = [] ↔ ∀ c ∈ l, p c := by
  induction l with
  | nil => simp [List.dropWhile]
  | cons a l ih =>
    by_cases h : p a
    · simp [List.dropWhile, h, ih]
    · simp [List.dropWhile, h]

theorem all_dropWhile_iff {p : Char → Bool} {l : Str} :
    (∀ c ∈ l.dropWhile p, p c) ↔ (∀ c ∈ l, p c) := by
  induction l with
  | nil => simp
  | cons a l ih =>
    by_cases h : p a
    · simpa [List.dropWhile, h] using ih
    · simp [List.dropWhile, h]

theorem jsTrim_eq_nil_iff {s : Str} : jsTrim s = [] ↔ ∀ c ∈ s, isWS c := by
  unfold jsTrim
  rw [List.reverse_eq_nil_iff, dropWhile_eq_nil_iff_all]
  constructor
  · intro h
    rw [← all_dropWhile_iff (p := isWS) (l := s)]
    intro c hc
    exact h c (by simpa using hc)
  · intro h c hc
    have hc2 : c ∈ s.dropWhile isWS := by simpa using hc
    exact h c ((List.dropWhile_sublist isWS).subset hc2)

theorem hasNonWS_iff_jsTrim {s : Str} : hasNonWS s = true ↔ jsTrim s ≠ [] := by
  rw [Ne, jsTrim_eq_nil_iff]
  simp [hasNonWS]

theorem hasNonWS_ne_nil {s : Str} (h : hasNonWS s = true) : s ≠ [] := by
  intro hnil
  subst hnil
  simp [hasNonWS] at h

/-! ## Helper lemmas about the message container -/

theorem jsTrim_isEmpty_eq {t : Str} : (jsTrim t).isEmpty = !hasNonWS t := by
  by_cases h : hasNonWS t = true
  · have := hasNonWS_iff_jsTrim.mp h
    simp [h, List.isEmpty_iff, this]
  · have hb : hasNonWS t = false := by
      cases hx : hasNonWS t
      · rfl
      · exact absurd hx h
    have : jsTrim t = [] := by
      by_contra hne
      exact h (hasNonWS_iff_jsTrim.mpr hne)
    simp [hb, List.isEmpty_iff, this]

theorem setMsg_untouched {mid : Nat} {f : Msg → Msg} {M : List (Nat × Msg)}
    (h : ∀ p ∈ M, p.1 ≠ mid) : setMsg mid f M = M := by
  induction M with
  | nil => rfl
  | cons p rest ih =>
    have hp : p.1 ≠ mid := h p (by simp)
    have hr := ih (fun q hq => h q (by simp [hq]))
    simp only [setMsg, List.map_cons, if_neg hp] at hr ⊢
    rw [hr]

theorem setMsg_last {mid : Nat} {f : Msg → Msg} {M : List (Nat × Msg)} {m : Msg}
    (h : ∀ p ∈ M, p.1 ≠ mid) :
    setMsg mid f (M ++ [(mid, m)]) = M ++ [(mid, f m)] := by
  unfold setMsg
  rw [List.map_append]
  have h1 : M.map (fun p => if p.1 = mid then (p.1, f p.2) else p) = M := by
    have := setMsg_untouched (f := f) h
    simpa [setMsg] using this
  simp [h1]

theorem removeMsg_last {mid : Nat} {M : List (Nat × Msg)} {m : Msg}
    (h : ∀ p ∈ M, p.1 ≠ mid) :
    removeMsg mid (M ++ [(mid, m)]) = M := by
  unfold removeMsg
  rw [List.filter_append]
  have h1 : M.filter (fun p => decide (p.1 ≠ mid)) = M := by
    rw [List.filter_eq_self]
    intro p hp
    simpa using h p hp
  rw [h1]
  simp

theorem appendToken_step (render : Str → Str) (t : Str) (s : AppState)
    (mid : Nat) (M : List (Nat × Msg)) (r : Role) (hh : Str)
    (hM : s.messages = M ++ [(mid, ⟨r, !s.hasReceivedContent, hh⟩)])
    (hMne : ∀ p ∈ M, p.1 ≠ mid)
    (hcur : s.currentAIMessage = some mid) :
    appendToken render t s =
      { s with
        messages := M ++ [(mid, ⟨r, !(s.hasReceivedContent || hasNonWS t),
          render (s.currentAIContent ++ t)⟩)]
        currentAIContent := s.currentAIContent ++ t
        hasReceivedContent := s.hasReceivedContent || hasNonWS t } := by
  have hguard : (!(jsTrim t).isEmpty) = hasNonWS t := by
    rw [jsTrim_isEmpty_eq, Bool.not_not]
  simp only [appendToken, hcur, hguard]
  by_cases hb : s.hasReceivedContent = true
  · rw [hb] at hM
    simp only [Bool.not_true] at hM
    simp only [hb, Bool.not_true, Bool.false_and, Bool.true_or]
    simp [hM, setMsg_last hMne, hcur, hb]
  · have hbf : s.hasReceivedContent = false := by
      cases hx : s.hasReceivedContent
      · rfl
      · exact absurd hx hb
    rw [hbf] at hM
    simp only [Bool.not_false] at hM
    by_cases ht : hasNonWS t = true
    · simp only [hbf, ht, Bool.not_false, Bool.true_and, Bool.false_or, if_true]
      rw [hM, setMsg_last hMne]
      simp only [List.append_eq]
      rw [setMsg_last hMne]
      simp
    · have htf : hasNonWS t = false := by
        cases hx : hasNonWS t
        · rfl
        · exact absurd hx ht
      simp only [hbf, htf, Bool.not_false, Bool.true_and, Bool.false_or,
        Bool.false_eq_true, if_false]
      simp [hM, setMsg_last hMne, hcur, hbf]

/-- Characterization of a run of token events over a live stream buffer
whose div is the last child of the container: content accumulates by
concatenation in arrival order, the whole concatenation is re-rendered
at every step, hasReceivedContent flips at the first token containing
a non-whitespace character, and the "pending" class tracks its
negation. -/
theorem processTokens_run (render : Str → Str) (toks : List Str) :
    ∀ (s : AppState) (mid : Nat) (M : List (Nat × Msg)) (r : Role) (hh : Str),
    s.messages = M ++ [(mid, ⟨r, !s.hasReceivedContent, hh⟩)] →
    (∀ p ∈ M, p.1 ≠ mid) →
    s.currentAIMessage = some mid →
    processTokens render toks s =
      { s with
        messages := M ++ [(mid,
          ⟨r, !(s.hasReceivedContent || toks.any hasNonWS),
           if toks.isEmpty then hh
           else render (s.currentAIContent ++ toks.flatten)⟩)]
        currentAIContent := s.currentAIContent ++ toks.flatten
        hasReceivedContent := s.hasReceivedContent || toks.any hasNonWS } := by
  induction toks with
  | nil =>
    intro s mid M r hh hM hMne hcur
    simp only [processTokens, List.foldl_nil, List.any_nil, Bool.or_false,
      List.isEmpty_nil, if_true, List.flatten_nil, List.append_nil, ← hM]
  | cons t rest ih =>
    intro s mid M r hh hM hMne hcur
    have hstep := appendToken_step render t s mid M r hh hM hMne hcur
    have hfold : processTokens render (t :: rest) s =
        processTokens render rest (appendToken render t s) := rfl
    rw [hfold, hstep]
    have hih := ih
      { s with
        messages := M ++ [(mid, ⟨r, !(s.hasReceivedContent || hasNonWS t),
          render (s.currentAIContent ++ t)⟩)]
        currentAIContent := s.currentAIContent ++ t
        hasReceivedContent := s.hasReceivedContent || hasNonWS t }
      mid M r (render (s.currentAIContent ++ t)) rfl hMne hcur
    rw [hih]
    by_cases hrest : rest = []
    · subst hrest
      simp [List.append_assoc, Bool.or_assoc]
    · simp [List.isEmpty_iff, hrest, List.append_assoc, Bool.or_assoc]

/-! ## Dispatcher bridging lemmas -/

theorem handle_startFrame (render : Str → Str) (now : Int) (s : AppState) :
    handleWebSocketMessage render now startFrame s =
      Except.ok (createAIMessageElement { s with isStreaming := true }) := rfl

theorem handle_tokenFrame (render : Str → Str) (now : Int) (c : Str) (s : AppState) :
    handleWebSocketMessage render now (tokenFrame c) s =
      Except.ok (appendToken render c s) := rfl

theorem handle_endFrame (render : Str → Str) (now : Int) (s : AppState) :
    handleWebSocketMessage render now endFrame s =
      Except.ok (finalizeAIMessage render { s with isStreaming := false }) := rfl

theorem handle_stoppedFrame (render : Str → Str) (now : Int) (s : AppState) :
    handleWebSocketMessage render now stoppedFrame s =
      Except.ok (finalizeAIMessage render { s with isStreaming := false }) := rfl

theorem handle_errorFrame (render : Str → Str) (now : Int) (m : Str) (s : AppState) :
    handleWebSocketMessage render now (errorFrame m) s =
      Except.ok { showError m s with isStreaming := false } := rfl

theorem runEvents_append (render : Str → Str) (l1 l2 : List (Int × Frame)) :
    ∀ s : AppState, runEvents render (l1 ++ l2) s =
      (runEvents render l1 s).bind (runEvents render l2) := by
  induction l1 with
  | nil => intro s; rfl
  | cons p rest ih =>
    intro s
    obtain ⟨now, fr⟩ := p
    simp only [List.cons_append, runEvents]
    cases h : handleWebSocketMessage render now fr s with
    | ok s2 => simp [h, ih]
    | error e => simp [h, Except.bind]

theorem runEvents_tokens (render : Str → Str) (toks : List (Int × Str)) :
    ∀ s : AppState,
    runEvents render (toks.map (fun p => (p.1, tokenFrame p.2))) s =
      Except.ok (processTokens render (toks.map Prod.snd) s) := by
  induction toks with
  | nil => intro s; rfl
  | cons p rest ih =>
    intro s
    simp only [List.map_cons, runEvents, handle_tokenFrame]
    exact ih (appendToken render p.2 s)

theorem hasNonWS_flatten {l : List Str} (h : ∃ t ∈ l, hasNonWS t) :
    hasNonWS l.flatten = true := by
  obtain ⟨t, ht, hnw⟩ := h
  simp only [hasNonWS, List.any_eq_true] at hnw ⊢
  obtain ⟨c, hc, hcw⟩ := hnw
  exact ⟨c, List.mem_flatten.mpr ⟨t, ht, hc⟩, hcw⟩

theorem WF_ne_nextId {s : AppState} (hWF : WF s) :
    ∀ p ∈ s.messages, p.1 ≠ s.nextId := by
  intro p hp
  exact Nat.ne_of_lt (hWF.2 p hp)

/-! ## Finalization lemmas -/

theorem finalize_keep (render : Str → Str) (s : AppState) (mid : Nat)
    (M : List (Nat × Msg)) (m : Msg)
    (hM : s.messages = M ++ [(mid, m)]) (hMne : ∀ p ∈ M, p.1 ≠ mid)
    (hcur : s.currentAIMessage = some mid)
    (hrecv : s.hasReceivedContent = true)
    (hc : s.currentAIContent ≠ []) :
    finalizeAIMessage render s =
      { s with
        messages := M ++ [(mid, ⟨m.role, false, render s.currentAIContent⟩)]
        currentAIMessage := none
        currentAIContent := []
        hasReceivedContent := false } := by
  simp only [finalizeAIMessage, hcur, hrecv, Bool.not_true, Bool.false_eq_true,
    if_false]
  rw [if_pos (by simp [List.isEmpty_iff, hc])]
  rw [hM, setMsg_last hMne]

theorem finalize_discard (render : Str → Str) (s : AppState) (mid : Nat)
    (M : List (Nat × Msg)) (m : Msg)
    (hM : s.messages = M ++ [(mid, m)]) (hMne : ∀ p ∈ M, p.1 ≠ mid)
    (hcur : s.currentAIMessage = some mid)
    (hrecv : s.hasReceivedContent = false) :
    finalizeAIMessage render s =
      { s with
        messages := M
        currentAIMessage := none
        currentAIContent := []
        hasReceivedContent := false } := by
  simp only [finalizeAIMessage, hcur, hrecv, Bool.not_false, if_true]
  rw [hM, removeMsg_last hMne]

theorem except_ok_bind (x : AppState) (f : AppState → Except JsErr AppState) :
    (Except.ok x : Except JsErr AppState).bind f = f x := rfl

theorem runEvents_one_endFrame (render : Str → Str) (t : Int) (s : AppState) :
    runEvents render [(t, endFrame)] s =
      Except.ok (finalizeAIMessage render { s with isStreaming := false }) := rfl

theorem runEvents_one_stoppedFrame (render : Str → Str) (t : Int) (s : AppState) :
    runEvents render [(t, stoppedFrame)] s =
      Except.ok (finalizeAIMessage render { s with isStreaming := false }) := rfl

/-! ## Claim C1 -/

/-- Claim C1: for every single stream consisting of one stream_start
event, a finite sequence of token events with payloads t1..tn (at
least one containing a non-whitespace character), and one finalizing
stream_end event, the finalized message content equals the markdown
rendering of the concatenation t1 ++ ... ++ tn in arrival order. -/
theorem claim_C1_stream_finalized_concat (render : Str → Str) (s₀ : AppState)
    (toks : List (Int × Str)) (t0 t1 : Int)
    (hWF : WF s₀) (hnz : ∃ p ∈ toks, hasNonWS p.2) :
    runEvents render
      ((t0, startFrame) :: toks.map (fun p => (p.1, tokenFrame p.2)) ++
        [(t1, endFrame)]) s₀
    = Except.ok
      { s₀ with
        messages := s₀.messages ++
          [(s₀.nextId, ⟨Role.ai, false, render ((toks.map Prod.snd).flatten)⟩)]
        nextId := s₀.nextId + 1
        currentAIMessage := none
        currentAIContent := []
        hasReceivedContent := false
        isStreaming := false } := by
  have hMne := WF_ne_nextId hWF
  have hany : (toks.map Prod.snd).any hasNonWS = true := by
    simp only [List.any_eq_true]
    obtain ⟨p, hp, hw⟩ := hnz
    exact ⟨p.2, List.mem_map.mpr ⟨p, hp, rfl⟩, hw⟩
  have hflat : ((toks.map Prod.snd).flatten : Str) ≠ [] := by
    apply hasNonWS_ne_nil
    apply hasNonWS_flatten
    obtain ⟨p, hp, hw⟩ := hnz
    exact ⟨p.2, List.mem_map.mpr ⟨p, hp, rfl⟩, hw⟩
  have e1 : runEvents render
      ((t0, startFrame) :: toks.map (fun p => (p.1, tokenFrame p.2)) ++
        [(t1, endFrame)]) s₀
      = runEvents render
          (toks.map (fun p => (p.1, tokenFrame p.2)) ++ [(t1, endFrame)])
          (createAIMessageElement { s₀ with isStreaming := true }) := rfl
  rw [e1, runEvents_append, runEvents_tokens]
  rw [processTokens_run render (toks.map Prod.snd)
      (createAIMessageElement { s₀ with isStreaming := true })
      s₀.nextId s₀.messages Role.ai typingIndicatorHTML rfl hMne rfl]
  rw [except_ok_bind, runEvents_one_endFrame]
  congr 1
  rw [finalize_keep render _ s₀.nextId s₀.messages _ rfl hMne rfl
      (by simp [hany]) (by exact hflat)]
  rfl

/-- Witness for claim C1 at a concrete two-token stream. -/
theorem claim_C1_stream_finalized_concat_witness :
    runEvents (fun c => c)
      ((0, startFrame) ::
        [((1 : Int), ("Merha").data), ((2 : Int), ("ba!").data)].map
          (fun p => (p.1, tokenFrame p.2)) ++ [(3, endFrame)]) initState
    = Except.ok
      { initState with
        messages := initState.messages ++
          [(initState.nextId, ⟨Role.ai, false,
            (fun c => c)
              (([((1 : Int), ("Merha").data), ((2 : Int), ("ba!").data)].map
                Prod.snd).flatten)⟩)]
        nextId := initState.nextId + 1
        currentAIMessage := none
        currentAIContent := []
        hasReceivedContent := false
        isStreaming := false } :=
  claim_C1_stream_finalized_concat (fun c => c) initState
    [((1 : Int), ("Merha").data), ((2 : Int), ("ba!").data)] 0 3
    (by decide) (by decide)

/-! ## Shared lemma for content-free streams -/

/-- A stream whose tokens are all whitespace-only (in particular, the
zero-token stream) ends with the pending div removed and the
accumulator reset, whichever of stream_end and stopped finalizes
it. -/
theorem ws_stream_run (render : Str → Str) (s₀ : AppState)
    (toks : List (Int × Str)) (t0 t1 : Int) (fin : Frame)
    (hWF : WF s₀) (hfin : fin = endFrame ∨ fin = stoppedFrame)
    (hws : (toks.map Prod.snd).any hasNonWS = false) :
    runEvents render
      ((t0, startFrame) :: toks.map (fun p => (p.1, tokenFrame p.2)) ++
        [(t1, fin)]) s₀
    = Except.ok
      { s₀ with
        nextId := s₀.nextId + 1
        currentAIMessage := none
        currentAIContent := []
        hasReceivedContent := false
        isStreaming := false } := by
  have hMne := WF_ne_nextId hWF
  have e1 : runEvents render
      ((t0, startFrame) :: toks.map (fun p => (p.1, tokenFrame p.2)) ++
        [(t1, fin)]) s₀
      = runEvents render
          (toks.map (fun p => (p.1, tokenFrame p.2)) ++ [(t1, fin)])
          (createAIMessageElement { s₀ with isStreaming := true }) := rfl
  rw [e1, runEvents_append, runEvents_tokens]
  rw [processTokens_run render (toks.map Prod.snd)
      (createAIMessageElement { s₀ with isStreaming := true })
      s₀.nextId s₀.messages Role.ai typingIndicatorHTML rfl hMne rfl]
  rcases hfin with hfin | hfin
  · subst hfin
    rw [except_ok_bind, runEvents_one_endFrame]
    congr 1
    rw [finalize_discard render _ s₀.nextId s₀.messages _ rfl hMne rfl
        (by simp only [hws, Bool.or_false]; rfl)]
    rfl
  · subst hfin
    rw [except_ok_bind, runEvents_one_stoppedFrame]
    congr 1
    rw [finalize_discard render _ s₀.nextId s₀.messages _ rfl hMne rfl
        (by simp only [hws, Bool.or_false]; rfl)]
    rfl

/-! ## Claim C5 -/

/-- Claim C5: a stream_start immediately followed by a finalizing event
(stream_end or stopped) with zero intervening tokens leaves no visible
message: the pending element created at stream_start is removed, the
message list is exactly as before, and the accumulator is reset. -/
theorem claim_C5_empty_stream_no_message (render : Str → Str) (s₀ : AppState)
    (t0 t1 : Int) (fin : Frame)
    (hWF : WF s₀) (hfin : fin = endFrame ∨ fin = stoppedFrame) :
    runEvents render [(t0, startFrame), (t1, fin)] s₀
    = Except.ok
      { s₀ with
        nextId := s₀.nextId + 1
        currentAIMessage := none
        currentAIContent := []
        hasReceivedContent := false
        isStreaming := false } :=
  ws_stream_run render s₀ [] t0 t1 fin hWF hfin rfl

/-- Witness for claim C5 at the initial state, for both finalizers. -/
theorem claim_C5_empty_stream_no_message_witness :
    (runEvents (fun c => c) [(0, startFrame), (1, endFrame)] initState
      = Except.ok
        { initState with
          nextId := initState.nextId + 1
          currentAIMessage := none
          currentAIContent := []
          hasReceivedContent := false
          isStreaming := false })
    ∧ (runEvents (fun c => c) [(0, startFrame), (1, stoppedFrame)] initState
      = Except.ok
        { initState with
          nextId := initState.nextId + 1
          currentAIMessage := none
          currentAIContent := []
          hasReceivedContent := false
          isStreaming := false }) :=
  ⟨claim_C5_empty_stream_no_message (fun c => c) initState 0 1 endFrame
      (by decide) (Or.inl rfl),
   claim_C5_empty_stream_no_message (fun c => c) initState 0 1 stoppedFrame
      (by decide) (Or.inr rfl)⟩

/-! ## Claim C10 -/

/-- Claim C10: if every token received between stream_start and the
finalizing event is whitespace-only, finalization discards the message
exactly as in the zero-token case (the run equals the zero-token run,
and the message list returns to its prior value); and after any prefix
of such tokens the in-flight element still carries its pending
(typing-indicator) class. -/
theorem claim_C10_whitespace_stream_discarded (render : Str → Str)
    (s₀ : AppState) (toks : List (Int × Str)) (t0 t1 : Int)
    (hWF : WF s₀) (hws : ∀ p ∈ toks, ∀ c ∈ p.2, isWS c) :
    (runEvents render
        ((t0, startFrame) :: toks.map (fun p => (p.1, tokenFrame p.2)) ++
          [(t1, endFrame)]) s₀
      = runEvents render [(t0, startFrame), (t1, endFrame)] s₀)
    ∧ (runEvents render
        ((t0, startFrame) :: toks.map (fun p => (p.1, tokenFrame p.2)) ++
          [(t1, endFrame)]) s₀
      = Except.ok
        { s₀ with
          nextId := s₀.nextId + 1
          currentAIMessage := none
          currentAIContent := []
          hasReceivedContent := false
          isStreaming := false })
    ∧ ∀ pre post, toks = pre ++ post →
        ∃ h : Str,
          runEvents render
            ((t0, startFrame) :: pre.map (fun p => (p.1, tokenFrame p.2))) s₀
          = Except.ok (processTokens render (pre.map Prod.snd)
              (createAIMessageElement { s₀ with isStreaming := true }))
          ∧ (processTokens render (pre.map Prod.snd)
              (createAIMessageElement { s₀ with isStreaming := true })).messages
            = s₀.messages ++ [(s₀.nextId, ⟨Role.ai, true, h⟩)] := by
  have hMne := WF_ne_nextId hWF
  have hanyf : (toks.map Prod.snd).any hasNonWS = false := by
    apply Bool.eq_false_iff.mpr
    intro hx
    rw [List.any_eq_true] at hx
    obtain ⟨t, ht, hnw⟩ := hx
    obtain ⟨p, hp, rfl⟩ := List.mem_map.mp ht
    simp only [hasNonWS, List.any_eq_true] at hnw
    obtain ⟨c, hc, hcw⟩ := hnw
    exact absurd (hws p hp c hc) (by simpa using hcw)
  refine ⟨?_, ?_, ?_⟩
  · exact (ws_stream_run render s₀ toks t0 t1 endFrame hWF (Or.inl rfl)
      hanyf).trans
      (ws_stream_run render s₀ [] t0 t1 endFrame hWF (Or.inl rfl) rfl).symm
  · exact ws_stream_run render s₀ toks t0 t1 endFrame hWF (Or.inl rfl) hanyf
  · intro pre post heq
    have hpre : (pre.map Prod.snd).any hasNonWS = false := by
      apply Bool.eq_false_iff.mpr
      intro hx
      rw [List.any_eq_true] at hx
      obtain ⟨t, ht, hnw⟩ := hx
      obtain ⟨p, hp, rfl⟩ := List.mem_map.mp ht
      simp only [hasNonWS, List.any_eq_true] at hnw
      obtain ⟨c, hc, hcw⟩ := hnw
      have hptoks : p ∈ toks := by
        rw [heq]
        exact List.mem_append.mpr (Or.inl hp)
      exact absurd (hws p hptoks c hc) (by simpa using hcw)
    refine ⟨if (pre.map Prod.snd).isEmpty then typingIndicatorHTML
        else render ((pre.map Prod.snd).flatten), ?_, ?_⟩
    · have e1 : runEvents render
          ((t0, startFrame) :: pre.map (fun p => (p.1, tokenFrame p.2))) s₀
          = runEvents render (pre.map (fun p => (p.1, tokenFrame p.2)))
              (createAIMessageElement { s₀ with isStreaming := true }) := rfl
      rw [e1, runEvents_tokens]
    · rw [processTokens_run render (pre.map Prod.snd)
          (createAIMessageElement { s₀ with isStreaming := true })
          s₀.nextId s₀.messages Role.ai typingIndicatorHTML rfl hMne rfl]
      simp only [hpre, Bool.or_false]
      rfl

/-- Witness for claim C10 at a concrete whitespace-only stream. -/
theorem claim_C10_whitespace_stream_discarded_witness :
    (runEvents (fun c => c)
        ((0, startFrame) :: [((1 : Int), (" ").data), ((2 : Int), ("\n\t").data)].map
          (fun p => (p.1, tokenFrame p.2)) ++ [(3, endFrame)]) initState
      = runEvents (fun c => c) [(0, startFrame), (3, endFrame)] initState)
    ∧ (runEvents (fun c => c)
        ((0, startFrame) :: [((1 : Int), (" ").data), ((2 : Int), ("\n\t").data)].map
          (fun p => (p.1, tokenFrame p.2)) ++ [(3, endFrame)]) initState
      = Except.ok
        { initState with
          nextId := initState.nextId + 1
          currentAIMessage := none
          currentAIContent := []
          hasReceivedContent := false
          isStreaming := false })
    ∧ ∀ pre post,
        [((1 : Int), (" ").data), ((2 : Int), ("\n\t").data)] = pre ++ post →
        ∃ h : Str,
          runEvents (fun c => c)
            ((0, startFrame) :: pre.map (fun p => (p.1, tokenFrame p.2))) initState
          = Except.ok (processTokens (fun c => c) (pre.map Prod.snd)
              (createAIMessageElement { initState with isStreaming := true }))
          ∧ (processTokens (fun c => c) (pre.map Prod.snd)
              (createAIMessageElement { initState with isStreaming := true })).messages
            = initState.messages ++ [(initState.nextId, ⟨Role.ai, true, h⟩)] :=
  claim_C10_whitespace_stream_discarded (fun c => c) initState
    [((1 : Int), (" ").data), ((2 : Int), ("\n\t").data)] 0 3
    (by decide) (by decide)

/-! ## Claim C7 -/

/-- Claim C7: when no socket exists or the socket readyState is not
OPEN, stopGeneration changes nothing — no stop envelope is sent, no
exception, no retry, all client state unchanged. -/
theorem claim_C7_stop_closed_noop (s : AppState)
    (h : ∀ w, s.ws = some w → w.readyState ≠ wsOpen) :
    stopGeneration s = s := by
  unfold stopGeneration
  cases hw : s.ws with
  | none => rfl
  | some w => simp [h w hw]

/-- Witness for claim C7: a missing socket and a CLOSED (readyState 3)
socket. -/
theorem claim_C7_stop_closed_noop_witness :
    stopGeneration initState = initState
    ∧ stopGeneration { initState with ws := some ⟨3, []⟩ }
      = { initState with ws := some ⟨3, []⟩ } :=
  ⟨claim_C7_stop_closed_noop initState
      (by intro w hw; exact Option.noConfusion hw),
   claim_C7_stop_closed_noop { initState with ws := some ⟨3, []⟩ }
      (by
        intro w hw
        injection hw with h1
        rw [← h1]
        decide)⟩

/-! ## Claim C3 (corrected) -/

/-- Counterexample to claim C3 as stated: after stream_start at the
initial state, processing an error envelope leaves the StreamBuffer
live — currentAIMessage still references message element 0 instead of
being finalized to none. -/
theorem claim_C3_error_counterexample :
    (runEvents (fun c => c) [(0, startFrame), (1, errorFrame ("boom").data)]
      initState).map (fun s => s.currentAIMessage) = Except.ok (some 0) := rfl

/-- Claim C3 amended: the error envelope appends a visible system
message carrying "❌ Hata: " ++ message and clears the streaming flag,
but does not finalize the in-flight stream: currentAIMessage,
currentAIContent and hasReceivedContent are left untouched, so the
StreamBuffer stays live until the next stream_end or stopped. -/
theorem claim_C3_error_shows_message_keeps_stream (render : Str → Str)
    (now : Int) (s : AppState) (msg : Str) :
    handleWebSocketMessage render now (errorFrame msg) s
    = Except.ok
      { s with
        messages := s.messages ++
          [(s.nextId, ⟨Role.system, false, errPrefix ++ msg⟩)]
        nextId := s.nextId + 1
        isStreaming := false } := rfl

/-! ## Claim C2 (corrected) -/

/-- Counterexample to claim C2 as stated: a frame whose body is not
valid JSON is not silently ignored — JSON.parse has no try/catch
around it, so the dispatcher propagates the parse exception instead of
returning the state unchanged. -/
theorem claim_C2_malformed_counterexample :
    handleWebSocketMessage (fun c => c) 0 Frame.malformed initState
      = Except.error JsErr.parseError := rfl

/-- Claim C2 amended: a well-formed frame whose kind tag is not in the
fixed routing table falls through the switch and is silently ignored
(state unchanged), but a frame whose body is not valid JSON makes the
dispatcher throw the JSON.parse exception. -/
theorem claim_C2_unknown_ignored_malformed_throws (render : Str → Str)
    (now : Int) (s : AppState) (d : Data) (hk : d.type ∉ knownKinds) :
    handleWebSocketMessage render now (Frame.json d) s = Except.ok s
    ∧ handleWebSocketMessage render now Frame.malformed s
      = Except.error JsErr.parseError := by
  have hne : ∀ k ∈ knownKinds, d.type ≠ k := fun k hkk h => hk (h ▸ hkk)
  constructor
  · simp only [handleWebSocketMessage]
    rw [if_neg (hne "session_created" (by decide))]
    rw [if_neg (hne "stream_start" (by decide))]
    rw [if_neg (hne "token" (by decide))]
    rw [if_neg (hne "tool_start" (by decide))]
    rw [if_neg (hne "tool_end" (by decide))]
    rw [if_neg (hne "todo_update" (by decide))]
    rw [if_neg (hne "memory_update" (by decide))]
    rw [if_neg (hne "browser_start" (by decide))]
    rw [if_neg (hne "browser_result" (by decide))]
    rw [if_neg (hne "stream_end" (by decide))]
    rw [if_neg (hne "error" (by decide))]
    rw [if_neg (hne "stopped" (by decide))]
    rw [if_neg (hne "system" (by decide))]
    rw [if_neg (hne "status" (by decide))]
    rw [if_neg (hne "thinking_start" (by decide))]
    rw [if_neg (hne "thinking_token" (by decide))]
    rw [if_neg (hne "thinking_end" (by decide))]
    rw [if_neg (hne "docker_command" (by decide))]
    rw [if_neg (hne "docker_output" (by decide))]
    rw [if_neg (hne "server_started" (by decide))]
    rw [if_neg (hne "canvas_url" (by decide))]
    rw [if_neg (hne "html_created" (by decide))]
    rw [if_neg (hne "gui_started" (by decide))]
    rw [if_neg (hne "reminder_triggered" (by decide))]
  · rfl

/-- Witness for claim C2 amended at a concrete unknown kind. -/
theorem claim_C2_unknown_ignored_malformed_throws_witness :
    handleWebSocketMessage (fun c => c) 0
      (Frame.json { type := "future_kind" }) initState = Except.ok initState
    ∧ handleWebSocketMessage (fun c => c) 0 Frame.malformed initState
      = Except.error JsErr.parseError :=
  claim_C2_unknown_ignored_malformed_throws (fun c => c) 0 initState
    { type := "future_kind" } (by decide)

/-! ## Claim C8 (corrected) -/

theorem addAppToTaskbar_preview (i n ic ty : String) (co : Option Str)
    (s : AppState) : (addAppToTaskbar i n ic ty co s).preview = s.preview := by
  unfold addAppToTaskbar
  split
  · rfl
  · rfl

theorem showWeb_preview (url : Option Str) (s : AppState) :
    (showWeb url s).preview = s.preview := by
  cases url with
  | none => rfl
  | some u =>
    show (if u.isEmpty || u = ("undefined").data then s
      else addAppToTaskbar "app_web" "Web Preview" "🌐" "web" (some u)
        { s with viewport := { hideAll s.viewport with frameVisible := true, frameSrc := some u } }).preview = s.preview
    split
    · rfl
    · rw [addAppToTaskbar_preview]

theorem setPreviewContent_web (now : Int) (u : Str) (s : AppState) :
    (setPreviewContent now "web" (some u) none s).preview
      = ⟨"web", some u, now⟩ := by
  unfold setPreviewContent
  rw [if_pos rfl]
  rw [showWeb_preview]

/-- Counterexample to claim C8 as stated: the url " " (one space) is
non-empty, yet the dispatcher guard rejects it — the frame is
ignored whole, the state is unchanged and the preview mode stays
"empty", not "web". -/
theorem claim_C8_counterexample :
    handleWebSocketMessage (fun c => c) 0
      (browserStartFrame ("web_search").data (" ").data) initState
      = Except.ok initState
    ∧ initState.preview.mode ≠ "web" := ⟨rfl, by decide⟩

/-- Claim C8 amended: a dispatched browser_start whose url contains a
non-whitespace character and is not the literal string "undefined"
sets the preview to mode "web" with that url as content; urls that
are empty, whitespace-only, or the string "undefined" are ignored. -/
theorem claim_C8_browser_start_sets_preview (render : Str → Str) (now : Int)
    (s : AppState) (tool u : Str)
    (h1 : hasNonWS u = true) (h2 : u ≠ ("undefined").data) :
    ∃ s2, handleWebSocketMessage render now (browserStartFrame tool u) s
        = Except.ok s2
      ∧ s2.preview.mode = "web" ∧ s2.preview.content = some u := by
  have hne : u ≠ [] := hasNonWS_ne_nil h1
  have hg1 : u.isEmpty = false := by simp [List.isEmpty_iff, hne]
  have hg2 : (u == ("undefined").data) = false := by
    simp only [beq_eq_false_iff_ne, ne_eq]
    exact h2
  have hg3 : (jsTrim u).isEmpty = false := by
    rw [jsTrim_isEmpty_eq, h1]
    rfl
  have e0 : handleWebSocketMessage render now (browserStartFrame tool u) s
      = Except.ok
        (if !u.isEmpty && !(u == ("undefined").data) && !(jsTrim u).isEmpty
         then setPreviewContent now "web" (some u) none s else s) := rfl
  refine ⟨setPreviewContent now "web" (some u) none s, ?_, ?_, ?_⟩
  · rw [e0, hg1, hg2, hg3]
    rfl
  · rw [setPreviewContent_web]
  · rw [setPreviewContent_web]

/-- Witness for claim C8 amended, on the scenario of the spec: tool_start
for web_search followed by browser_start with url http://x (the first
conjunct records the tool_start dispatch step). -/
theorem claim_C8_browser_start_sets_preview_witness :
    (handleWebSocketMessage (fun c => c) 1
        (toolStartFrame ("web_search").data ("q").data) initState
      = Except.ok (addToolStart ("web_search").data ("q").data 1
          (addToolActivity ("web_search").data ("q").data true initState)))
    ∧ ∃ s2, handleWebSocketMessage (fun c => c) 2
        (browserStartFrame ("web_search").data ("http://x").data)
        (addToolStart ("web_search").data ("q").data 1
          (addToolActivity ("web_search").data ("q").data true initState))
        = Except.ok s2
      ∧ s2.preview.mode = "web"
      ∧ s2.preview.content = some (("http://x").data) :=
  ⟨rfl,
   claim_C8_browser_start_sets_preview (fun c => c) 2
     (addToolStart ("web_search").data ("q").data 1
       (addToolActivity ("web_search").data ("q").data true initState))
     ("web_search").data ("http://x").data (by decide) (by decide)⟩

/-! ## Claim C4 -/

theorem endFirst_split (toolName output : Str) (now : Int) :
    ∀ h : List ToolEntry,
    (∃ e ∈ h, e.tool = toolName ∧ e.status = TStatus.running) →
    ∃ A e B, h = A ++ e :: B
      ∧ (∀ a ∈ A, ¬(a.tool = toolName ∧ a.status = TStatus.running))
      ∧ e.tool = toolName ∧ e.status = TStatus.running
      ∧ endFirst toolName output now h
          = A ++ { e with
              output := some output
              status := TStatus.completed
              endTime := some now
              duration := some (now - e.startTime) } :: B := by
  intro h
  induction h with
  | nil => rintro ⟨e, he, -⟩; exact absurd he (List.not_mem_nil e)
  | cons x rest ih =>
    intro hex
    by_cases hx : x.tool = toolName ∧ x.status = TStatus.running
    · refine ⟨[], x, rest, rfl, by simp, hx.1, hx.2, ?_⟩
      simp [endFirst, hx]
    · obtain ⟨e, he, hm⟩ := hex
      rcases List.mem_cons.mp he with rfl | hrest
      · exact absurd hm hx
      · obtain ⟨A, e2, B, hsplit, hA, hm1, hm2, hend⟩ := ih ⟨e, hrest, hm⟩
        refine ⟨x :: A, e2, B, by rw [hsplit]; rfl, ?_, hm1, hm2, ?_⟩
        · intro a ha
          rcases List.mem_cons.mp ha with rfl | haA
          · exact hx
          · exact hA a haA
        · simp only [endFirst, hx, if_false, List.cons_append]
          rw [hend]

/-- Claim C4: for every ledger state with at least one running entry
matching the tool name, tool_end modifies exactly one entry — the one
closest to the front of toolHistory among matching running entries,
i.e. the most recently started, since addToolStart unshifts — marking
it completed with the given output, endedAt = now and duration =
now − startedAt; every other entry is unchanged.  The duration is
nonnegative whenever the clock is monotone (no entry started after
now), and under the newest-first ordering that unshifting maintains,
the startedAt of the completed entry is maximal among matching running
entries. -/
theorem claim_C4_tool_end_completes_most_recent (s : AppState)
    (toolName output : Str) (now : Int)
    (hex : ∃ e ∈ s.toolHistory, e.tool = toolName ∧ e.status = TStatus.running) :
    ∃ A e B,
      s.toolHistory = A ++ e :: B
      ∧ (∀ a ∈ A, ¬(a.tool = toolName ∧ a.status = TStatus.running))
      ∧ e.tool = toolName ∧ e.status = TStatus.running
      ∧ addToolEnd toolName output now s
          = { s with
              toolHistory := A ++ { e with
                output := some output
                status := TStatus.completed
                endTime := some now
                duration := some (now - e.startTime) } :: B
              activeToolId := none }
      ∧ ((∀ x ∈ s.toolHistory, x.status = TStatus.running → x.startTime ≤ now) →
          0 ≤ now - e.startTime)
      ∧ (s.toolHistory.Pairwise (fun a b => b.startTime ≤ a.startTime) →
          ∀ x ∈ B, x.tool = toolName → x.status = TStatus.running →
            x.startTime ≤ e.startTime) := by
  obtain ⟨A, e, B, hsplit, hA, hm1, hm2, hend⟩ :=
    endFirst_split toolName output now s.toolHistory hex
  refine ⟨A, e, B, hsplit, hA, hm1, hm2, ?_, ?_, ?_⟩
  · unfold addToolEnd
    rw [hend]
  · intro hmono
    have he : e ∈ s.toolHistory := by
      rw [hsplit]
      exact List.mem_append.mpr (Or.inr (List.mem_cons_self e B))
    have := hmono e he hm2
    omega
  · intro hsort x hx hxt hxs
    rw [hsplit] at hsort
    have h2 := (List.pairwise_append.mp hsort).2.1
    exact (List.pairwise_cons.mp h2).1 x hx

/-- Witness for claim C4: two overlapping starts of the same tool, then
one tool_end. -/
theorem claim_C4_tool_end_completes_most_recent_witness :
    ∃ A e B,
      (addToolStart ("web_search").data ("in2").data 5
        (addToolStart ("web_search").data ("in1").data 3 initState)).toolHistory
        = A ++ e :: B
      ∧ (∀ a ∈ A, ¬(a.tool = ("web_search").data ∧ a.status = TStatus.running))
      ∧ e.tool = ("web_search").data ∧ e.status = TStatus.running
      ∧ addToolEnd ("web_search").data ("out").data 9
          (addToolStart ("web_search").data ("in2").data 5
            (addToolStart ("web_search").data ("in1").data 3 initState))
          = { (addToolStart ("web_search").data ("in2").data 5
                (addToolStart ("web_search").data ("in1").data 3 initState)) with
              toolHistory := A ++ { e with
                output := some (("out").data)
                status := TStatus.completed
                endTime := some 9
                duration := some (9 - e.startTime) } :: B
              activeToolId := none }
      ∧ ((∀ x ∈ (addToolStart ("web_search").data ("in2").data 5
            (addToolStart ("web_search").data ("in1").data 3 initState)).toolHistory,
            x.status = TStatus.running → x.startTime ≤ 9) → 0 ≤ 9 - e.startTime)
      ∧ ((addToolStart ("web_search").data ("in2").data 5
            (addToolStart ("web_search").data ("in1").data 3 initState)).toolHistory.Pairwise
            (fun a b => b.startTime ≤ a.startTime) →
          ∀ x ∈ B, x.tool = ("web_search").data → x.status = TStatus.running →
            x.startTime ≤ e.startTime) :=
  claim_C4_tool_end_completes_most_recent
    (addToolStart ("web_search").data ("in2").data 5
      (addToolStart ("web_search").data ("in1").data 3 initState))
    ("web_search").data ("out").data 9 (by decide)

/-! ## Claim C9 -/

theorem addAppToTaskbar_ids_nodup (i n ic ty : String) (co : Option Str)
    (s : AppState) (h : appIdsNodup s) :
    appIdsNodup (addAppToTaskbar i n ic ty co s) := by
  unfold addAppToTaskbar
  by_cases hex : s.openApps.any (fun a => a.id = i) = true
  · rw [if_pos hex]; exact h
  · rw [if_neg hex]
    have hnot : i ∉ s.openApps.map (fun a => a.id) := by
      intro hmem
      obtain ⟨a, ha, hai⟩ := List.mem_map.mp hmem
      exact hex (List.any_eq_true.mpr ⟨a, ha, by simp [hai]⟩)
    unfold appIdsNodup at h ⊢
    simp only [List.map_append, List.map_cons, List.map_nil]
    rw [List.nodup_append]
    exact ⟨h, List.nodup_singleton i, by simpa using hnot⟩

theorem setMinimizedFirst_ids (appId : String) (b : Bool) :
    ∀ l : List TApp,
    (setMinimizedFirst appId b l).map (fun a => a.id) = l.map (fun a => a.id) := by
  intro l
  induction l with
  | nil => rfl
  | cons a rest ih =>
    by_cases ha : a.id = appId
    · simp [setMinimizedFirst, ha]
    · simp only [setMinimizedFirst, if_neg ha, List.map_cons, ih]

theorem showEmpty_openApps (s : AppState) : (showEmpty s).openApps = s.openApps := rfl

theorem hideAllContent_openApps (s : AppState) :
    (hideAllContent s).openApps = s.openApps := rfl

theorem addAppToTaskbar_nodup_openApps (i n ic ty : String) (co : Option Str)
    (s : AppState) (h : appIdsNodup s) :
    appIdsNodup { s with openApps := (addAppToTaskbar i n ic ty co s).openApps } :=
  addAppToTaskbar_ids_nodup i n ic ty co s h

theorem showWeb_nodup (url : Option Str) (s : AppState) (h : appIdsNodup s) :
    appIdsNodup (showWeb url s) := by
  cases url with
  | none => exact h
  | some u =>
    show appIdsNodup (if u.isEmpty || u = ("undefined").data then s
      else addAppToTaskbar "app_web" "Web Preview" "🌐" "web" (some u)
        { s with viewport := { hideAll s.viewport with frameVisible := true, frameSrc := some u } })
    split
    · exact h
    · exact addAppToTaskbar_ids_nodup _ _ _ _ _ _ h

theorem showImage_nodup (src : Option Str) (s : AppState) (h : appIdsNodup s) :
    appIdsNodup (showImage src s) := by
  unfold showImage
  exact addAppToTaskbar_ids_nodup _ _ _ _ _ _ h

theorem showVNC_nodup (dataPort : Option Int) (s : AppState) (h : appIdsNodup s) :
    appIdsNodup (showVNC dataPort s) := by
  unfold showVNC
  exact addAppToTaskbar_ids_nodup _ _ _ _ _ _ h

theorem showEmpty_nodup (s : AppState) (h : appIdsNodup s) :
    appIdsNodup (showEmpty s) := h

theorem setPreviewContent_nodup (now : Int) (type : String) (url : Option Str)
    (port : Option Int) (s : AppState) (h : appIdsNodup s) :
    appIdsNodup (setPreviewContent now type url port s) := by
  unfold setPreviewContent
  split
  · exact showWeb_nodup url _ h
  · split
    · exact showImage_nodup url _ h
    · split
      · exact showVNC_nodup port _ h
      · exact showEmpty_nodup _ h

theorem minimizeCurrentApp_nodup (s : AppState) (h : appIdsNodup s) :
    appIdsNodup (minimizeCurrentApp s) := by
  unfold minimizeCurrentApp hideAllContent showEmpty appIdsNodup
  simpa [setMinimizedFirst_ids] using h

theorem restoreApp_nodup (appId : String) (s : AppState) (h : appIdsNodup s) :
    appIdsNodup (restoreApp appId s) := by
  unfold restoreApp
  cases hfind : s.openApps.find? (fun a => a.id = appId) with
  | none => exact h
  | some app =>
    have h1 : appIdsNodup { s with openApps := setMinimizedFirst appId false s.openApps } := by
      unfold appIdsNodup
      simpa [setMinimizedFirst_ids] using h
    have h2 : ∀ s2 : AppState, appIdsNodup s2 →
        appIdsNodup (if app.type = "web" then showWeb app.content s2 else s2) := by
      intro s2 hs2
      split
      · exact showWeb_nodup app.content s2 hs2
      · exact hs2
    have h3 : ∀ s2 : AppState, appIdsNodup s2 →
        appIdsNodup (if app.type = "vnc" then showVNC none s2 else s2) := by
      intro s2 hs2
      split
      · exact showVNC_nodup none s2 hs2
      · exact hs2
    have h4 : ∀ s2 : AppState, appIdsNodup s2 →
        appIdsNodup (if app.type = "image" then showImage app.content s2 else s2) := by
      intro s2 hs2
      split
      · exact showImage_nodup app.content s2 hs2
      · exact hs2
    exact h4 _ (h3 _ (h2 _ h1))

theorem removeActiveApp_nodup (s : AppState) (h : appIdsNodup s) :
    appIdsNodup (removeActiveApp s) := by
  unfold removeActiveApp
  split
  · unfold appIdsNodup
    have hsub : ((s.openApps.filter
        (fun a => a.id ≠ "app_" ++ s.preview.mode)).map (fun a => a.id)).Sublist
        (s.openApps.map (fun a => a.id)) :=
      (List.filter_sublist s.openApps).map (fun a => a.id)
    exact hsub.nodup h
  · exact h

theorem closeWindow_nodup (s : AppState) (h : appIdsNodup s) :
    appIdsNodup (closeWindow s) :=
  removeActiveApp_nodup _ h

theorem applyPrevOp_nodup (op : PrevOp) (s : AppState) (h : appIdsNodup s) :
    appIdsNodup (applyPrevOp op s) := by
  cases op with
  | setContent now type url port => exact setPreviewContent_nodup now type url port s h
  | minimize => exact minimizeCurrentApp_nodup s h
  | restore appId => exact restoreApp_nodup appId s h
  | close => exact closeWindow_nodup s h

theorem applyPrevOps_nodup (ops : List PrevOp) :
    ∀ s : AppState, appIdsNodup s → appIdsNodup (applyPrevOps ops s) := by
  induction ops with
  | nil => intro s h; exact h
  | cons op rest ih =>
    intro s h
    exact ih (applyPrevOp op s) (applyPrevOp_nodup op s h)

/-- Claim C9: over every sequence of setPreviewContent / minimize /
restore / close operations from the initial state, the open-apps list
never holds two entries with the same kind-derived id; and opening a
kind that is already open adds no new entry — addAppToTaskbar returns
the state unchanged. -/
theorem claim_C9_taskbar_unique_ids :
    (∀ ops : List PrevOp, appIdsNodup (applyPrevOps ops initState))
    ∧ (∀ (s : AppState) (i n ic ty : String) (co : Option Str),
        (∃ a ∈ s.openApps, a.id = i) →
        addAppToTaskbar i n ic ty co s = s) := by
  constructor
  · intro ops
    exact applyPrevOps_nodup ops initState (by simp [appIdsNodup, initState])
  · intro s i n ic ty co hex
    unfold addAppToTaskbar
    obtain ⟨a, ha, hai⟩ := hex
    rw [if_pos (List.any_eq_true.mpr ⟨a, ha, by simp [hai]⟩)]

/-- Witness for claim C9: a concrete operation sequence, and a second
web open on a state that already has the web app. -/
theorem claim_C9_taskbar_unique_ids_witness :
    appIdsNodup (applyPrevOps
      [PrevOp.setContent 1 "web" (some (("http://x").data)) none,
       PrevOp.minimize,
       PrevOp.setContent 2 "vnc" (some []) none,
       PrevOp.restore "app_web",
       PrevOp.close] initState)
    ∧ addAppToTaskbar "app_web" "Web Preview" "🌐" "web"
        (some (("http://y").data))
        (setPreviewContent 1 "web" (some (("http://x").data)) none initState)
      = setPreviewContent 1 "web" (some (("http://x").data)) none initState :=
  ⟨(claim_C9_taskbar_unique_ids).1
      [PrevOp.setContent 1 "web" (some (("http://x").data)) none,
       PrevOp.minimize,
       PrevOp.setContent 2 "vnc" (some []) none,
       PrevOp.restore "app_web",
       PrevOp.close],
   (claim_C9_taskbar_unique_ids).2
      (setPreviewContent 1 "web" (some (("http://x").data)) none initState)
      "app_web" "Web Preview" "🌐" "web" (some (("http://y").data))
      (by decide)⟩

/-! ## Claim C6 (code bug) -/

/-- Claim C6 evaluated at the failing input: open the web preview on
http://x, minimize, then restore.  Before minimizing the iframe is
visible with src http://x; the taskbar entry never stores the content
(addAppToTaskbar drops the content field of appInfo), so restoreApp
invokes showWeb with undefined, the URL validation rejects it, and
after restore the viewport still shows the empty placeholder — the
minimized flag is cleared and previewState still says mode "web"
with content http://x, but the content is not re-shown, contrary to
the claim (and to the own "Restore content" comment of restoreApp). -/
theorem claim_C6_restore_loses_content :
    (setPreviewContent 7 "web" (some (("http://x").data)) none
      initState).viewport.frameVisible = true
    ∧ (setPreviewContent 7 "web" (some (("http://x").data)) none
        initState).viewport.frameSrc = some (("http://x").data)
    ∧ (minimizeCurrentApp (setPreviewContent 7 "web" (some (("http://x").data))
        none initState)).openApps
      = [{ id := "app_web", name := "Web Preview", icon := "🌐", type := "web", minimized := true, content := none }]
    ∧ restoreApp "app_web"
        (minimizeCurrentApp (setPreviewContent 7 "web"
          (some (("http://x").data)) none initState))
      = { (minimizeCurrentApp (setPreviewContent 7 "web"
            (some (("http://x").data)) none initState)) with
          openApps := [{ id := "app_web", name := "Web Preview", icon := "🌐", type := "web", minimized := false, content := none }] }
    ∧ (restoreApp "app_web"
        (minimizeCurrentApp (setPreviewContent 7 "web"
          (some (("http://x").data)) none initState))).viewport.frameVisible
      = false
    ∧ (restoreApp "app_web"
        (minimizeCurrentApp (setPreviewContent 7 "web"
          (some (("http://x").data)) none initState))).viewport.placeholderVisible
      = true
    ∧ (restoreApp "app_web"
        (minimizeCurrentApp (setPreviewContent 7 "web"
          (some (("http://x").data)) none initState))).preview.mode = "web"
    ∧ (restoreApp "app_web"
        (minimizeCurrentApp (setPreviewContent 7 "web"
          (some (("http://x").data)) none initState))).preview.content
      = some (("http://x").data) := by
  refine ⟨rfl, rfl, rfl, ?_, rfl, rfl, rfl, rfl⟩
  rfl
